import Mathlib

/-
Verification of the credential-lifecycle layer of the sharkiq client
(`sharkiq/shark_auth.py` and `sharkiq/auth0_client.py`).

Modelling conventions:
* `datetime.now()` is an integer timestamp (seconds) passed explicitly.
* Exceptions become an explicit error component: stateful methods return
  `State × Option PyErr` (the state after the call, and the exception raised,
  if any); pure helpers return `Except PyErr α`.
* JSON dictionaries are records; where the code distinguishes an absent key
  from a key bound to `null` (plain indexing vs `.get`), the field is
  `Option (Option _)`: outer `none` = key absent, `some none` = key present
  with value `null`.
* Network I/O is an oracle (`NetOracle`) giving the outcome of each request.
-/

namespace SharkIq

/-- Exceptions raised by the client code. `authError` is `SharkIqAuthError`,
`notAuthed` is `SharkIqNotAuthedError`, `expiringSoon` is
`SharkIqAuthExpiringError`; `netError` models an exception raised by the
`requests` library, `jsonError` a `response.json()` parse failure, and
`genericError` the plain `Exception` raised on a failed Auth0 login. -/
inductive PyErr where
  | authError
  | notAuthed
  | expiringSoon
  | netError
  | jsonError
  | genericError
  deriving DecidableEq, Repr

/-- The credential fields of `SharkAuthClient`: `_access_token`,
`_refresh_token`, `_auth_expiration`, `_is_authed`. -/
structure SharkState where
  access_token : Option String
  refresh_token : Option String
  auth_expiration : Option Int
  is_authed : Bool
  deriving DecidableEq, Repr

/-- The state set up by `SharkAuthClient.__init__`. -/
def initState : SharkState :=
  { access_token := none, refresh_token := none,
    auth_expiration := none, is_authed := false }

/-- Python truthiness of an `Optional[str]`: `None` and `""` are falsy. -/
def strFalsy : Option String → Bool
  | none => true
  | some s => s == ""

/-- Python f-string rendering of an `Optional[str]` (`None` prints as
`"None"`). -/
def pyStr : Option String → String
  | none => "None"
  | some s => s

/-- JSON body consumed by `_set_credentials`. The `token` and
`refresh_token` keys may be absent (outer `none`) or bound to `null`
(`some none`); `expires_in` is either absent or an integer. -/
structure LoginResult where
  token : Option (Option String)
  refresh_token : Option (Option String)
  expires_in : Option Int
  deriving DecidableEq, Repr

/-- `SharkAuthClient._set_credentials(status_code, login_result)`.

Non-200 statuses raise `SharkIqAuthError` before touching any field.  On
200 the code runs `login_result["token"]` (a `KeyError` when the key is
absent, caught and re-raised as `SharkIqAuthError`), then
`login_result.get("refresh_token")`, then
`login_result.get("expires_in", 3600)` and sets
`_auth_expiration = datetime.now() + timedelta(seconds=expires_in)` and
`_is_authed = True`. A `token` key bound to `null` does not raise: it is
stored as-is. -/
def set_credentials (now : Int) (status : Nat) (body : LoginResult)
    (st : SharkState) : SharkState × Option PyErr :=
  if status = 404 then (st, some .authError)
  else if status = 401 then (st, some .authError)
  else if status ≠ 200 then (st, some .authError)
  else
    match body.token with
    | none => (st, some .authError)
    | some tok =>
        ({ access_token := tok,
           refresh_token := body.refresh_token.join,
           auth_expiration := some (now + body.expires_in.getD 3600),
           is_authed := true }, none)

/-- The `auth_expiration` property: `None` when not authed, raises
`SharkIqNotAuthedError` when authed but `_auth_expiration` is unset. -/
def auth_expiration (st : SharkState) : Except PyErr (Option Int) :=
  if st.is_authed = false then .ok none
  else
    match st.auth_expiration with
    | none => .error .notAuthed
    | some e => .ok (some e)

/-- The `token_expired` property: true when `auth_expiration` is `None`
or strictly in the past. -/
def token_expired (now : Int) (st : SharkState) : Except PyErr Bool :=
  match auth_expiration st with
  | .error e => .error e
  | .ok none => .ok true
  | .ok (some e) => .ok (decide (now > e))

/-- The `token_expiring_soon` property: true when `auth_expiration` is
`None` or within 600 seconds of now. -/
def token_expiring_soon (now : Int) (st : SharkState) : Except PyErr Bool :=
  match auth_expiration st with
  | .error e => .error e
  | .ok none => .ok true
  | .ok (some e) => .ok (decide (now > e - 600))

/-- `SharkAuthClient.check_auth(raise_expiring_soon=True)`.

`if not self._access_token or not self._is_authed or self.token_expired:`
sets `_is_authed = False` and raises `SharkIqNotAuthedError`; otherwise
when `raise_expiring_soon` and `token_expiring_soon` it raises
`SharkIqAuthExpiringError`. An exception raised inside the
`token_expired` property propagates without the `_is_authed = False`
assignment. -/
def check_auth (now : Int) (raise_expiring_soon : Bool) (st : SharkState) :
    SharkState × Option PyErr :=
  if strFalsy st.access_token || !st.is_authed then
    ({ st with is_authed := false }, some .notAuthed)
  else
    match token_expired now st with
    | .error e => (st, some e)
    | .ok true => ({ st with is_authed := false }, some .notAuthed)
    | .ok false =>
        if raise_expiring_soon then
          match token_expiring_soon now st with
          | .error e => (st, some e)
          | .ok true => (st, some .expiringSoon)
          | .ok false => (st, none)
        else (st, none)

/-- The `auth_header` property: runs `check_auth()` (with its strict
default `raise_expiring_soon=True`), then builds
`{"Authorization": f"Bearer {self._access_token}"}`. -/
def auth_header (now : Int) (st : SharkState) :
    SharkState × Except PyErr (String × String) :=
  match check_auth now true st with
  | (st2, some e) => (st2, .error e)
  | (st2, none) =>
      (st2, .ok ("Authorization", "Bearer " ++ pyStr st2.access_token))

/-- A Python `dict` of HTTP headers, as an association list in insertion
order. -/
abbrev HeaderMap := List (String × String)

/-- Python `d[k] = v` (the effect of `dict.update` for one key): replace
the value when the key is present, otherwise append. -/
def dictInsert (m : HeaderMap) (k v : String) : HeaderMap :=
  if m.any (fun p => p.1 == k) then
    m.map (fun p => if p.1 == k then (k, v) else p)
  else m ++ [(k, v)]

/-- `SharkAuthClient._get_headers(fn_kwargs)`.

`headers = fn_kwargs['headers']` binds the caller's own dict object (no
copy); `headers.update(self.auth_header)` then mutates it in place.  The
result carries both the headers used for the call and the content of the
caller-owned dict after the call (`none` when the caller passed no
`headers` entry), so aliasing is observable in the model. -/
def get_headers (now : Int) (st : SharkState) (callerHeaders : Option HeaderMap) :
    SharkState × Except PyErr (HeaderMap × Option HeaderMap) :=
  let h0 := callerHeaders.getD []
  match auth_header now st with
  | (st2, .error e) => (st2, .error e)
  | (st2, .ok kv) =>
      let h1 := dictInsert h0 kv.1 kv.2
      (st2, .ok (h1, callerHeaders.map (fun _ => h1)))

/-- `SharkAuthClient.request(method, url, **kwargs)`: builds headers via
`_get_headers` and returns the response of `requests.request` as-is.
`respStatus` is the status code of the remote response; the method never
inspects it (in particular there is no handling of 401 responses).  The
`ok` result is the response status, the headers sent, and the content of
the caller-owned header dict after the call. -/
def request (now : Int) (respStatus : Nat) (st : SharkState)
    (callerHeaders : Option HeaderMap) :
    SharkState × Except PyErr (Nat × HeaderMap × Option HeaderMap) :=
  match get_headers now st callerHeaders with
  | (st2, .error e) => (st2, .error e)
  | (st2, .ok (h, after)) => (st2, .ok (respStatus, h, after))

/-- `SharkAuthClient._clear_auth`. -/
def clear_auth (_st : SharkState) : SharkState := initState

/-- Auth0 `/oauth/token` JSON body as read through `dict.get` (absent and
`null` both give `None`). -/
structure Auth0Tokens where
  access_token : Option String
  id_token : Option String
  refresh_token : Option String
  expires_in : Option Int
  deriving DecidableEq, Repr

/-- Token-exchange response body as read by `get_shark_token`.  For
`access_token`/`token`/`refresh_token` the code uses `dict.get` with a
default, which distinguishes an absent key (outer `none`, default used)
from a key bound to `null` (`some none`, `None` returned). -/
structure ExchangeData where
  access_token : Option (Option String)
  token : Option (Option String)
  refresh_token : Option (Option String)
  expires_in : Option Int
  deriving DecidableEq, Repr

/-- Outcome of one `requests.get`/`requests.post` call: an exception, or
a response whose body may fail to parse as JSON (`none`). -/
inductive ReqOutcome (α : Type) where
  | err : ReqOutcome α
  | resp (status : Nat) (body : Option α) : ReqOutcome α
  deriving DecidableEq, Repr

/-- HTTP method used inside `get_shark_token`'s probing loop. -/
inductive HttpMethod where
  | get
  | post
  deriving DecidableEq, Repr

/-- The dict returned by `get_shark_token` (all three keys always
present; `token` may be `None`). -/
structure TokenResult where
  token : Option String
  refresh_token : Option String
  expires_in : Int
  deriving DecidableEq, Repr

/-- View a `TokenResult` as a `_set_credentials` body: every key is
present (possibly bound to `null`). -/
def TokenResult.toLoginResult (r : TokenResult) : LoginResult :=
  { token := some r.token, refresh_token := some r.refresh_token,
    expires_in := some r.expires_in }

/-- Network oracle: the outcome of the Auth0 login POST, of each probing
request of `get_shark_token` (by url, Authorization header value and
method), and of the refresh-endpoint POST of `refresh_auth`. -/
structure NetOracle where
  auth0 : ReqOutcome Auth0Tokens
  exchange : String → String → HttpMethod → ReqOutcome ExchangeData
  refresh : ReqOutcome LoginResult

/-- The list of token-exchange urls probed by `get_shark_token`. -/
def exchangeUrls : List String :=
  ["https://idp.iot-sharkninja.com/v1/token",
   "https://api.iot-sharkninja.com/v1/auth/token",
   "https://idp.iot-sharkninja.com/v1/me",
   "https://api.iot-sharkninja.com/v1/me"]

/-- The four Authorization header values tried for each url. -/
def authHeaderValues (access_token id_token : Option String) : List String :=
  ["Bearer " ++ pyStr id_token,
   "id_token=" ++ pyStr id_token,
   "token=" ++ pyStr id_token,
   "access_token=" ++ pyStr access_token]

/-- The dict built from a successful 200 exchange response:
`data.get("access_token", data.get("token", id_token))`,
`data.get("refresh_token", auth0_tokens.get("refresh_token"))`,
`data.get("expires_in", auth0_tokens.get("expires_in", 3600))`. -/
def exchangeSuccess (a0 : Auth0Tokens) (data : ExchangeData) : TokenResult :=
  { token := data.access_token.getD (data.token.getD a0.id_token),
    refresh_token := data.refresh_token.getD a0.refresh_token,
    expires_in := data.expires_in.getD (a0.expires_in.getD 3600) }

/-- One iteration of the probing loop for a given url/header pair: GET,
return on 200-with-JSON; otherwise POST, return on 200-with-JSON.  An
exception in the GET is caught by the surrounding `try` and skips the
POST for this pair; JSON parse failures are swallowed by the inner
`try ... except: pass`. -/
def tryOne (a0 : Auth0Tokens) (o : NetOracle) (url hdr : String) :
    Option TokenResult :=
  match o.exchange url hdr .get with
  | .err => none
  | .resp status body =>
      match (if status = 200 then body.map (exchangeSuccess a0) else none) with
      | some r => some r
      | none =>
          match o.exchange url hdr .post with
          | .err => none
          | .resp status2 body2 =>
              if status2 = 200 then body2.map (exchangeSuccess a0) else none

/-- The probing loop over the url/header pairs, in order, returning the
first success. -/
def tryAll (a0 : Auth0Tokens) (o : NetOracle) :
    List (String × String) → Option TokenResult
  | [] => none
  | (u, h) :: rest =>
      match tryOne a0 o u h with
      | some r => some r
      | none => tryAll a0 o rest

/-- The url/header pairs in the loop order of the source (urls outer,
header formats inner). -/
def combos (a0 : Auth0Tokens) : List (String × String) :=
  exchangeUrls.flatMap fun u =>
    (authHeaderValues a0.access_token a0.id_token).map fun h => (u, h)

/-- `auth0_client.get_shark_token(email, password)`.

Step 1 posts to the Auth0 token endpoint: an exception from `requests`
propagates; a non-200 status raises `Exception("Auth0 authentication
failed: ...")`; a non-JSON body raises from `response.json()`.  Step 2
probes every url/header pair; every failure inside the loop is printed
and swallowed.  When no probe succeeds the function returns the Auth0
tokens directly as a success: `{"token": id_token, "refresh_token":
auth0_tokens.get("refresh_token"), "expires_in":
auth0_tokens.get("expires_in", 3600)}`. -/
def get_shark_token (o : NetOracle) : Except PyErr TokenResult :=
  match o.auth0 with
  | .err => .error .netError
  | .resp status body =>
      if status ≠ 200 then .error .genericError
      else
        match body with
        | none => .error .jsonError
        | some a0 =>
            match tryAll a0 o (combos a0) with
            | some r => .ok r
            | none =>
                .ok { token := a0.id_token,
                      refresh_token := a0.refresh_token,
                      expires_in := a0.expires_in.getD 3600 }

/-- `SharkAuthClient.sign_in`: calls `get_shark_token` and then
`_set_credentials(200, result)`; any exception is caught and re-raised
as `SharkIqAuthError("Authentication failed: ...")`. -/
def sign_in (o : NetOracle) (now : Int) (st : SharkState) :
    SharkState × Option PyErr :=
  match get_shark_token o with
  | .error _ => (st, some .authError)
  | .ok r =>
      match set_credentials now 200 r.toLoginResult st with
      | (st2, none) => (st2, none)
      | (st2, some _) => (st2, some .authError)

/-- `SharkAuthClient.refresh_auth`: with a falsy `_refresh_token` it
performs a full `sign_in` and returns; otherwise it posts the refresh
token to the refresh endpoint and applies `_set_credentials` to the
response (exceptions from `requests.post`/`resp.json()` propagate
unwrapped). -/
def refresh_auth (o : NetOracle) (now : Int) (st : SharkState) :
    SharkState × Option PyErr :=
  if strFalsy st.refresh_token then sign_in o now st
  else
    match o.refresh with
    | .err => (st, some .netError)
    | .resp status body =>
        match body with
        | none => (st, some .jsonError)
        | some b => set_credentials now status b st

/-- A credential state that passes every local check at `now = 0`. -/
def stValid : SharkState :=
  { access_token := some "tok", refresh_token := none,
    auth_expiration := some 10000, is_authed := true }

/-- A credential state whose expiry at `now = 0` lies inside the
600-second skew window. -/
def stSoon : SharkState :=
  { access_token := some "tok", refresh_token := none,
    auth_expiration := some 300, is_authed := true }

/-- An oracle whose Auth0 login succeeds (with id token "idtok") but
whose every token-exchange probe raises. -/
def oracleFail : NetOracle :=
  { auth0 := .resp 200 (some { access_token := some "at",
                               id_token := some "idtok",
                               refresh_token := none, expires_in := none }),
    exchange := fun _ _ _ => .err,
    refresh := .resp 500 none }

/-- An oracle whose Auth0 login request itself raises a network error. -/
def oracleDown : NetOracle :=
  { auth0 := .err, exchange := fun _ _ _ => .err, refresh := .err }

/-- C1: if the authenticated flag is true while the access token is null,
then both entry points that use the credential (`check_auth`, run by every
operation, and the `auth_header` property) raise `SharkIqNotAuthedError`
and move the state to unauthenticated (`_is_authed = False`) before any
use; conversely any state that passes `check_auth` satisfies the
invariant that an authenticated credential carries a non-null token. -/
theorem check_auth_invariant_violation_cleared (now : Int) (strict : Bool)
    (st : SharkState) :
    (st.is_authed = true ∧ st.access_token = none →
       check_auth now strict st
         = ({ st with is_authed := false }, some PyErr.notAuthed) ∧
       auth_header now st
         = ({ st with is_authed := false }, Except.error PyErr.notAuthed)) ∧
    ((check_auth now strict st).2 = none → st.is_authed = true →
       st.access_token ≠ none) := by
  constructor
  · rintro ⟨_, htok⟩
    constructor
    · simp [check_auth, strFalsy, htok]
    · simp [auth_header, check_auth, strFalsy, htok]
  · intro hok _ htok
    simp [check_auth, strFalsy, htok] at hok

theorem check_auth_invariant_violation_cleared_witness :
    check_auth 0 false
        { access_token := none, refresh_token := none,
          auth_expiration := some 9999, is_authed := true }
      = ({ access_token := none, refresh_token := none,
           auth_expiration := some 9999, is_authed := false },
         some PyErr.notAuthed) :=
  ((check_auth_invariant_violation_cleared 0 false
      { access_token := none, refresh_token := none,
        auth_expiration := some 9999, is_authed := true }).1 ⟨rfl, rfl⟩).1

/-- C2 (counterexample): a 200 sign-in response whose body binds `token`
to `null` is not rejected: `_set_credentials` raises nothing and leaves
the client authenticated with a null access token. -/
theorem set_credentials_null_token_accepted :
    set_credentials 0 200
        { token := some none, refresh_token := none, expires_in := none }
        initState
      = ({ access_token := none, refresh_token := none,
           auth_expiration := some 3600, is_authed := true }, none) := by
  rfl

/-- C2 (amended): only a body with the `token` key missing entirely makes
`_set_credentials` fail (with `SharkIqAuthError`, leaving the state
untouched); whenever the key is present — even bound to `null` — its
value is stored verbatim, never defaulted, and the call succeeds. -/
theorem set_credentials_missing_token_only (now : Int) (body : LoginResult)
    (st : SharkState) :
    (body.token = none →
       set_credentials now 200 body st = (st, some PyErr.authError)) ∧
    (∀ t, body.token = some t →
       (set_credentials now 200 body st).1.access_token = t ∧
       (set_credentials now 200 body st).1.is_authed = true ∧
       (set_credentials now 200 body st).2 = none) := by
  constructor
  · intro h
    simp [set_credentials, h]
  · intro t h
    simp [set_credentials, h]

theorem set_credentials_missing_token_only_witness :
    set_credentials 0 200
        { token := none, refresh_token := none, expires_in := none }
        initState
      = (initState, some PyErr.authError) ∧
    (set_credentials 0 200
        { token := some none, refresh_token := none, expires_in := none }
        initState).1.access_token = none :=
  ⟨(set_credentials_missing_token_only 0
      { token := none, refresh_token := none, expires_in := none }
      initState).1 rfl,
   ((set_credentials_missing_token_only 0
      { token := some none, refresh_token := none, expires_in := none }
      initState).2 none rfl).1⟩

/-- C4: a credential whose stored expiry is strictly in the past always
fails `check_auth(strict=false)` with `SharkIqNotAuthedError`; and an
otherwise-usable credential whose expiry lies in the window
`[now, now+600)` fails `check_auth(strict=true)` with
`SharkIqAuthExpiringError` while `check_auth(strict=false)` succeeds. -/
theorem check_auth_expiry_windows (now e : Int) (st : SharkState)
    (he : st.auth_expiration = some e) :
    (now > e → (check_auth now false st).2 = some PyErr.notAuthed) ∧
    (st.is_authed = true → strFalsy st.access_token = false →
       now ≤ e → e < now + 600 →
       (check_auth now true st).2 = some PyErr.expiringSoon ∧
       (check_auth now false st).2 = none) := by
  constructor
  · intro hgt
    by_cases hc : strFalsy st.access_token || !st.is_authed
    · simp [check_auth, hc]
    · have ha : st.is_authed = true := by
        by_contra hb
        have hfa : st.is_authed = false := Bool.eq_false_iff.mpr hb
        simp [hfa] at hc
      simp [check_auth, hc, token_expired, auth_expiration, ha, he,
        decide_eq_true hgt]
  · intro ha hfal hle hlt
    have hcond : (strFalsy st.access_token || !st.is_authed) = false := by
      simp [hfal, ha]
    have hexp : decide (now > e) = false := decide_eq_false (not_lt.mpr hle)
    have hsoon : decide (now > e - 600) = true :=
      decide_eq_true (by omega)
    constructor
    · simp [check_auth, hcond, hfal, token_expired, token_expiring_soon,
        auth_expiration, ha, he, hexp, hsoon]
    · simp [check_auth, hcond, hfal, token_expired, auth_expiration, ha, he,
        hexp]

theorem check_auth_expiry_windows_witness :
    (check_auth 0 false
        { access_token := some "tok", refresh_token := none,
          auth_expiration := some (-5), is_authed := true }).2
      = some PyErr.notAuthed ∧
    (check_auth 0 true stSoon).2 = some PyErr.expiringSoon ∧
    (check_auth 0 false stSoon).2 = none := by
  refine ⟨(check_auth_expiry_windows 0 (-5)
      { access_token := some "tok", refresh_token := none,
        auth_expiration := some (-5), is_authed := true } rfl).1 (by decide),
    ?_, ?_⟩
  · exact ((check_auth_expiry_windows 0 300 stSoon rfl).2 rfl rfl
      (by decide) (by decide)).1
  · exact ((check_auth_expiry_windows 0 300 stSoon rfl).2 rfl rfl
      (by decide) (by decide)).2

/-- C8: `_set_credentials(200, {"token": "abc", "expires_in": 3600})`
yields an authenticated credential with access token `"abc"` and expiry
`now + 3600`; and with `expires_in` absent the expiry defaults to the
same `now + 3600`. -/
theorem set_credentials_success_and_default (now : Int) (st : SharkState) :
    set_credentials now 200
        { token := some (some "abc"), refresh_token := none,
          expires_in := some 3600 } st
      = ({ access_token := some "abc", refresh_token := none,
           auth_expiration := some (now + 3600), is_authed := true }, none) ∧
    set_credentials now 200
        { token := some (some "abc"), refresh_token := none,
          expires_in := none } st
      = ({ access_token := some "abc", refresh_token := none,
           auth_expiration := some (now + 3600), is_authed := true }, none) :=
  ⟨rfl, rfl⟩

/-- C10: `_set_credentials` is atomic on failure: every non-200 status,
and every 200 body with the `token` key absent, raises `SharkIqAuthError`
and leaves all four credential fields exactly as they were before the
call. -/
theorem set_credentials_atomic_on_failure (now : Int) (status : Nat)
    (body : LoginResult) (st : SharkState) :
    (status ≠ 200 →
       set_credentials now status body st = (st, some PyErr.authError)) ∧
    (body.token = none →
       set_credentials now 200 body st = (st, some PyErr.authError)) := by
  constructor
  · intro h
    unfold set_credentials
    split_ifs <;> rfl
  · intro h
    simp [set_credentials, h]

theorem set_credentials_atomic_on_failure_witness :
    set_credentials 0 500
        { token := some (some "abc"), refresh_token := none,
          expires_in := none } stValid
      = (stValid, some PyErr.authError) ∧
    set_credentials 0 200
        { token := none, refresh_token := some (some "r"),
          expires_in := some 60 } stValid
      = (stValid, some PyErr.authError) :=
  ⟨(set_credentials_atomic_on_failure 0 500
      { token := some (some "abc"), refresh_token := none,
        expires_in := none } stValid).1 (by decide),
   (set_credentials_atomic_on_failure 0 200
      { token := none, refresh_token := some (some "r"),
        expires_in := some 60 } stValid).2 rfl⟩

/-- Helper: a `check_auth` call that raises nothing leaves the credential
state unchanged. -/
theorem check_auth_ok_pair (now : Int) (strict : Bool) (st : SharkState)
    (h : (check_auth now strict st).2 = none) :
    check_auth now strict st = (st, none) := by
  rcases hc : check_auth now strict st with ⟨st2, oe⟩
  rw [hc] at h
  simp only at h
  subst h
  unfold check_auth at hc
  split at hc
  · simp at hc
  · split at hc
    · simp at hc
    · simp at hc
    · split at hc
      · split at hc
        · simp at hc
        · simp at hc
        · simp at hc
          simp [hc]
      · simp at hc
        simp [hc]

/-- C3 (counterexample): in a locally valid session a remote 401 response
is not reclassified and causes no transition: the session state after the
call is unchanged (`stValid`, still authenticated) and the next call
without an intervening sign-in succeeds instead of failing with
`SharkIqNotAuthedError`. -/
theorem request_401_no_transition :
    (request 0 401 stValid none).1 = stValid ∧
    (request 0 401 stValid none).2
      = Except.ok (401, [("Authorization", "Bearer tok")], none) ∧
    (request 0 200 (request 0 401 stValid none).1 none).2
      = Except.ok (200, [("Authorization", "Bearer tok")], none) := by
  exact ⟨rfl, rfl, rfl⟩

/-- C3 (amended): the Dispatcher never inspects the response status: the
session state after `request` equals the state left by the local (strict)
`check_auth` alone, whatever the response status is, and whenever the
local check passes the call returns the remote response as-is — so a
remote 401 causes no transition to Unauthenticated and the next call
still passes the local check. -/
theorem request_status_independent (now : Int) (respStatus : Nat)
    (st : SharkState) (ch : Option HeaderMap) :
    (request now respStatus st ch).1 = (check_auth now true st).1 ∧
    ((check_auth now true st).2 = none →
       ∃ h a, (request now respStatus st ch).2 = Except.ok (respStatus, h, a)) := by
  rcases hc : check_auth now true st with ⟨st2, oe⟩
  cases oe with
  | none =>
      refine ⟨by simp [request, get_headers, auth_header, hc], ?_⟩
      intro _
      refine ⟨dictInsert (ch.getD []) "Authorization"
          ("Bearer " ++ pyStr st2.access_token),
        ch.map (fun _ => dictInsert (ch.getD []) "Authorization"
          ("Bearer " ++ pyStr st2.access_token)), ?_⟩
      simp [request, get_headers, auth_header, hc]
  | some e =>
      refine ⟨by simp [request, get_headers, auth_header, hc], ?_⟩
      intro hnone
      simp at hnone

theorem request_status_independent_witness :
    (request 0 401 stValid (some [("X", "1")])).1
      = (check_auth 0 true stValid).1 ∧
    ∃ h a, (request 0 401 stValid (some [("X", "1")])).2
      = Except.ok (401, h, a) :=
  ⟨(request_status_independent 0 401 stValid (some [("X", "1")])).1,
   (request_status_independent 0 401 stValid (some [("X", "1")])).2 rfl⟩

/-- C5 (counterexample): on the normal request path (no strictness
requested by the caller — `request` takes no such parameter) a credential
inside the 600-second expiry window makes `request` raise
`SharkIqAuthExpiringError` without sending. -/
theorem request_raises_expiring_soon :
    (request 0 200 stSoon none).2 = Except.error PyErr.expiringSoon := by
  rfl

/-- C5 (amended): `request` performs the STRICT authentication check (its
header construction runs `check_auth()` with the default
`raise_expiring_soon=True`): the call fails with error `e` — propagated
without sending — exactly when the strict check raises `e`; in
particular `SharkIqNotAuthedError` is propagated, and
`SharkIqAuthExpiringError` is also raised on the normal request path,
with no way for the caller of `request` to opt out. -/
theorem request_error_iff_strict_check (now : Int) (respStatus : Nat)
    (st : SharkState) (ch : Option HeaderMap) (e : PyErr) :
    (request now respStatus st ch).2 = Except.error e ↔
      (check_auth now true st).2 = some e := by
  rcases hc : check_auth now true st with ⟨st2, oe⟩
  cases oe <;> simp [request, get_headers, auth_header, hc]

/-- C6 (counterexample): the caller-owned header map is not left
unchanged: after a call passing `{"X": "1"}`, the caller's original dict
holds the merged Authorization entry (the Dispatcher mutated it in
place), instead of still being `{"X": "1"}`. -/
theorem request_mutates_caller_headers :
    (request 0 200 stValid (some [("X", "1")])).2
      = Except.ok (200, [("X", "1"), ("Authorization", "Bearer tok")],
          some [("X", "1"), ("Authorization", "Bearer tok")]) ∧
    (some [("X", "1"), ("Authorization", "Bearer tok")] : Option HeaderMap)
      ≠ some [("X", "1")] := by
  exact ⟨rfl, by decide⟩

/-- C6 (amended): `_get_headers` aliases the caller's dict and merges the
Authorization header into it in place: whenever the local check passes,
the headers sent and the content of the caller-owned map after the call
are both the caller's original map with the
`Authorization: Bearer <token>` entry inserted — no per-call copy is
made. -/
theorem request_merges_into_caller_map (now : Int) (respStatus : Nat)
    (st : SharkState) (h : HeaderMap) :
    (check_auth now true st).2 = none →
    (request now respStatus st (some h)).2
      = Except.ok (respStatus,
          dictInsert h "Authorization" ("Bearer " ++ pyStr st.access_token),
          some (dictInsert h "Authorization"
            ("Bearer " ++ pyStr st.access_token))) := by
  intro hok
  have hc := check_auth_ok_pair now true st hok
  simp [request, get_headers, auth_header, hc]

theorem request_merges_into_caller_map_witness :
    (request 0 200 stValid (some [("Y", "2")])).2
      = Except.ok (200,
          dictInsert [("Y", "2")] "Authorization"
            ("Bearer " ++ pyStr stValid.access_token),
          some (dictInsert [("Y", "2")] "Authorization"
            ("Bearer " ++ pyStr stValid.access_token))) :=
  request_merges_into_caller_map 0 200 stValid [("Y", "2")] rfl

/-- C7: when no refresh token is stored, `refresh_auth` is the same
state transformer as `sign_in`: same resulting credential state and same
raised failure on every network oracle and at every time. -/
theorem refresh_auth_no_token_is_sign_in (o : NetOracle) (now : Int)
    (st : SharkState) (h : st.refresh_token = none) :
    refresh_auth o now st = sign_in o now st := by
  simp [refresh_auth, strFalsy, h]

theorem refresh_auth_no_token_is_sign_in_witness :
    refresh_auth oracleFail 0 initState = sign_in oracleFail 0 initState :=
  refresh_auth_no_token_is_sign_in oracleFail 0 initState rfl

/-- Helper: when every token-exchange probe raises, the probing loop of
`get_shark_token` finds nothing, over any list of url/header pairs. -/
theorem tryAll_exchange_err (a0 : Auth0Tokens) (o : NetOracle)
    (hall : ∀ u hd m, o.exchange u hd m = ReqOutcome.err) :
    ∀ l : List (String × String), tryAll a0 o l = none := by
  intro l
  induction l with
  | nil => rfl
  | cons p rest ih =>
      rcases p with ⟨u, hd⟩
      simp [tryAll, tryOne, hall, ih]

/-- C9 (counterexample): with an oracle whose Auth0 login succeeds but
whose every token-exchange attempt raises, `get_shark_token` surfaces no
failure at all: every exchange failure is swallowed and the call returns
a successful result built from the Auth0 id token. -/
theorem get_shark_token_all_fail_success :
    oracleFail.exchange "" "" HttpMethod.get = ReqOutcome.err ∧
    get_shark_token oracleFail
      = Except.ok { token := some "idtok", refresh_token := none,
                    expires_in := 3600 } := by
  exact ⟨rfl, rfl⟩

/-- C9 (amended): only a failure of the initial Auth0 login step is
surfaced (and `sign_in` wraps it into `SharkIqAuthError`): an exception
there propagates, and a non-200 status raises immediately with no
fallback attempted.  Once the Auth0 step succeeds, failures of the
token-exchange attempts are silently swallowed, and when every attempt
fails `get_shark_token` still returns success, falling back to the Auth0
id token — no original failure is re-surfaced. -/
theorem get_shark_token_failure_policy (o : NetOracle) (now : Int)
    (st : SharkState) :
    (o.auth0 = ReqOutcome.err →
       get_shark_token o = Except.error PyErr.netError ∧
       sign_in o now st = (st, some PyErr.authError)) ∧
    (∀ status b, o.auth0 = ReqOutcome.resp status b → status ≠ 200 →
       get_shark_token o = Except.error PyErr.genericError) ∧
    (∀ a0, o.auth0 = ReqOutcome.resp 200 (some a0) →
       (∀ u hd m, o.exchange u hd m = ReqOutcome.err) →
       get_shark_token o
         = Except.ok { token := a0.id_token,
                       refresh_token := a0.refresh_token,
                       expires_in := a0.expires_in.getD 3600 }) := by
  refine ⟨?_, ?_, ?_⟩
  · intro h
    constructor
    · simp [get_shark_token, h]
    · simp [sign_in, get_shark_token, h]
  · intro status b h hne
    simp [get_shark_token, h, hne]
  · intro a0 h hall
    simp [get_shark_token, h, tryAll_exchange_err a0 o hall]

theorem get_shark_token_failure_policy_witness :
    get_shark_token oracleDown = Except.error PyErr.netError ∧
    sign_in oracleDown 0 initState = (initState, some PyErr.authError) ∧
    get_shark_token oracleFail
      = Except.ok { token := some "idtok", refresh_token := none,
                    expires_in := (none : Option Int).getD 3600 } := by
  refine ⟨((get_shark_token_failure_policy oracleDown 0 initState).1 rfl).1,
    ((get_shark_token_failure_policy oracleDown 0 initState).1 rfl).2, ?_⟩
  exact (get_shark_token_failure_policy oracleFail 0 initState).2.2
    { access_token := some "at", id_token := some "idtok",
      refresh_token := none, expires_in := none } rfl (fun _ _ _ => rfl)

end SharkIq
